import Mathlib

/-!
Verification of the GNU Radio generated script `gnuradio/pirate_radio.py`
(repository codespacehelp/hackfm).

The script defines a class `pirate_radio` holding five Python attributes
(`rf_freq`, `transmit_status_label`, `rf_rate`, `quad_rate`, `audio_rate`),
instantiates five external signal-processing blocks with literal
configuration constants, declares four directed connections between block
ports, and exposes trivial getters/setters.

Shallow embedding choices:
* Python numbers (ints and the floats used here, all exactly representable)
  are modelled as rationals in ℚ.
* Python's `str` applied to a float is modelled by `pyFloatStr`, a decimal
  printer; on the short terminating decimals this script produces
  (e.g. 102.2), Python's shortest-round-trip float printing coincides with
  the plain decimal expansion.
* The external objects (the soapy sink and the Qt label widget) are reached
  only through method calls; setters are pure functions from the object
  state to a new state together with the list of external calls they emit,
  in emission order.
* The construction sequence, `main`, and `closeEvent` are modelled as flat
  traces of steps, with try/except blocks delimited by enter/exit markers.
-/

namespace PirateRadio

/-- Decimal digits of the fractional part num/den (0 ≤ num < den), up to
`fuel` digits, stopping when the remainder is zero. -/
def fracDigits (num den : Nat) : Nat → List Nat
  | 0 => []
  | fuel + 1 =>
    if num = 0 then []
    else (num * 10 / den) :: fracDigits (num * 10 % den) den fuel

/-- Model of Python `str` on a float value, for the exactly-representable
terminating decimals this script manipulates: sign, integer part, a dot,
then the fractional digits (Python prints a trailing `.0` for integral
floats, hence the `0` when there is no fractional digit). -/
def pyFloatStr (q : ℚ) : String :=
  let sign := if q < 0 then "-" else ""
  let n := q.num.natAbs
  let d := q.den
  let digs := fracDigits (n % d) d 17
  let fracStr := if digs.isEmpty then "0" else String.join (digs.map (fun k => toString k))
  sign ++ toString (n / d) ++ "." ++ fracStr

/-- The value passed to `soapy.sink.set_gain`: the script passes the bool
`False` for the AMP stage and a number for the VGA stage. -/
inductive GainVal
  | bool (b : Bool)
  | num (x : ℚ)
deriving DecidableEq, Repr

/-- Method calls on the soapy hackrf sink object. -/
inductive SinkCall
  | set_sample_rate (chan : ℤ) (rate : ℚ)
  | set_bandwidth (chan : ℤ) (bw : ℚ)
  | set_frequency (chan : ℤ) (freq : ℚ)
  | set_gain (chan : ℤ) (stage : String) (value : GainVal)
deriving DecidableEq, Repr

/-- External method calls a property setter can emit: a call on the soapy
sink, or the queued `setText` on the Qt status-label widget
(`Qt.QMetaObject.invokeMethod(..., "setText", ...)`). -/
inductive ExtCall
  | sink (c : SinkCall)
  | label_setText (s : String)
deriving DecidableEq, Repr

/-- The Python attributes of the `pirate_radio` object that the script's
getters and setters read and write. -/
structure State where
  rf_freq : ℚ
  transmit_status_label : String
  rf_rate : ℚ
  quad_rate : ℚ
  audio_rate : ℚ
deriving DecidableEq, Repr

/-- Variable block of `__init__`: `self.rf_freq = rf_freq = 102.2e6`. -/
def rf_freq_init : ℚ := 102200000

/-- `self.rf_rate = rf_rate = 2_000_000`. -/
def rf_rate_init : ℚ := 2000000

/-- `self.quad_rate = quad_rate = 480_000`. -/
def quad_rate_init : ℚ := 480000

/-- `self.audio_rate = audio_rate = 48_000`. -/
def audio_rate_init : ℚ := 48000

/-- The attribute values after the Variables section of `__init__`:
`transmit_status_label = str(rf_freq/1e6) + " MHz"`. -/
def init_state : State :=
  { rf_freq := rf_freq_init
    transmit_status_label := pyFloatStr (rf_freq_init / 1000000) ++ " MHz"
    rf_rate := rf_rate_init
    quad_rate := quad_rate_init
    audio_rate := audio_rate_init }

/-- `get_rf_freq`. -/
def get_rf_freq (st : State) : ℚ := st.rf_freq

/-- `get_transmit_status_label`. -/
def get_transmit_status_label (st : State) : String := st.transmit_status_label

/-- `get_rf_rate`. -/
def get_rf_rate (st : State) : ℚ := st.rf_rate

/-- `get_quad_rate`. -/
def get_quad_rate (st : State) : ℚ := st.quad_rate

/-- `get_audio_rate`. -/
def get_audio_rate (st : State) : ℚ := st.audio_rate

/-- `set_transmit_status_label`: stores the value and queues `setText` on
the label widget with the formatted value (the formatter is `str`, the
identity on an already-string value). -/
def set_transmit_status_label (st : State) (v : String) : State × List ExtCall :=
  ({ st with transmit_status_label := v }, [ExtCall.label_setText v])

/-- `set_rf_freq`: stores the frequency, updates the status label to
`str(self.rf_freq/1e6) + " MHz"`, then calls
`soapy_hackrf_sink_0.set_frequency(0, self.rf_freq)`. -/
def set_rf_freq (st : State) (v : ℚ) : State × List ExtCall :=
  let st1 := { st with rf_freq := v }
  let lab := set_transmit_status_label st1 (pyFloatStr (st1.rf_freq / 1000000) ++ " MHz")
  (lab.1, lab.2 ++ [ExtCall.sink (SinkCall.set_frequency 0 st1.rf_freq)])

/-- `set_rf_rate`: stores the rate and calls
`soapy_hackrf_sink_0.set_sample_rate(0, self.rf_rate)`. -/
def set_rf_rate (st : State) (v : ℚ) : State × List ExtCall :=
  ({ st with rf_rate := v }, [ExtCall.sink (SinkCall.set_sample_rate 0 v)])

/-- `set_quad_rate`: stores the rate; no external call. -/
def set_quad_rate (st : State) (v : ℚ) : State × List ExtCall :=
  ({ st with quad_rate := v }, [])

/-- `set_audio_rate`: stores the rate; no external call. -/
def set_audio_rate (st : State) (v : ℚ) : State × List ExtCall :=
  ({ st with audio_rate := v }, [])

/-! ### Blocks, their configuration constants, and the connections -/

/-- The five signal-processing blocks instantiated in the Blocks section of
`__init__`, named after the attributes holding them. -/
inductive BlockId
  | soapy_hackrf_sink_0
  | rational_resampler_xxx_1
  | rational_resampler_xxx_0
  | blocks_wavfile_source_0
  | analog_nbfm_tx_0
deriving DecidableEq, Repr

/-- Arguments of the `soapy.sink(dev, "fc32", 1, '', stream_args, tune_args,
settings)` constructor call. -/
structure SoapySinkArgs where
  dev : String
  fmt : String
  nchan : ℕ
  dev_args : String
  stream_args : String
  tune_args : List String
  settings : List String
deriving DecidableEq, Repr

/-- The constructor arguments of `soapy_hackrf_sink_0`. -/
def soapy_hackrf_sink_0_args : SoapySinkArgs :=
  { dev := "driver=hackrf"
    fmt := "fc32"
    nchan := 1
    dev_args := ""
    stream_args := ""
    tune_args := [""]
    settings := [""] }

/-- The configuration calls issued on `soapy_hackrf_sink_0` right after its
construction, in source order (lines 95-99). -/
def soapy_hackrf_sink_0_setup : List SinkCall :=
  [ SinkCall.set_sample_rate 0 rf_rate_init
  , SinkCall.set_bandwidth 0 0
  , SinkCall.set_frequency 0 rf_freq_init
  , SinkCall.set_gain 0 "AMP" (GainVal.bool false)
  , SinkCall.set_gain 0 "VGA" (GainVal.num (min (max 16 0) 47)) ]

/-- Keyword arguments of a `filter.rational_resampler_...` constructor. -/
structure RationalResamplerArgs where
  interpolation : ℕ
  decimation : ℕ
  taps : List ℚ
  fractional_bw : ℚ
deriving DecidableEq, Repr

/-- `rational_resampler_xxx_1`: the RF resampler,
`interpolation=rf_rate, decimation=quad_rate`. -/
def rational_resampler_xxx_1_args : RationalResamplerArgs :=
  { interpolation := 2000000, decimation := 480000, taps := [], fractional_bw := 0 }

/-- `rational_resampler_xxx_0`: the audio resampler,
`interpolation=quad_rate, decimation=audio_rate`. -/
def rational_resampler_xxx_0_args : RationalResamplerArgs :=
  { interpolation := 480000, decimation := 48000, taps := [], fractional_bw := 0 }

/-- Arguments of `blocks.wavfile_source(filename, repeat)`. -/
structure WavfileSourceArgs where
  filename : String
  repeat_flag : Bool
deriving DecidableEq, Repr

/-- `blocks_wavfile_source_0 = blocks.wavfile_source('audio/example_1mb.wav', True)`. -/
def blocks_wavfile_source_0_args : WavfileSourceArgs :=
  { filename := "audio/example_1mb.wav", repeat_flag := true }

/-- Keyword arguments of `analog.nbfm_tx`. -/
structure NbfmTxArgs where
  audio_rate : ℚ
  quad_rate : ℚ
  tau : ℚ
  max_dev : ℚ
  fh : ℚ
deriving DecidableEq, Repr

/-- `analog_nbfm_tx_0 = analog.nbfm_tx(audio_rate=quad_rate, quad_rate=quad_rate,
tau=75e-6, max_dev=75_000, fh=-1.0)`. -/
def analog_nbfm_tx_0_args : NbfmTxArgs :=
  { audio_rate := quad_rate_init
    quad_rate := quad_rate_init
    tau := 75 / 1000000
    max_dev := 75000
    fh := -1 }

/-- One `self.connect((src, src_port), (dst, dst_port))` declaration. -/
structure Connection where
  src : BlockId
  src_port : ℕ
  dst : BlockId
  dst_port : ℕ
deriving DecidableEq, Repr

/-- The four connection declarations of `__init__`, in source order
(lines 123-126). -/
def connections : List Connection :=
  [ ⟨BlockId.analog_nbfm_tx_0, 0, BlockId.rational_resampler_xxx_1, 0⟩
  , ⟨BlockId.blocks_wavfile_source_0, 0, BlockId.rational_resampler_xxx_0, 0⟩
  , ⟨BlockId.rational_resampler_xxx_0, 0, BlockId.analog_nbfm_tx_0, 0⟩
  , ⟨BlockId.rational_resampler_xxx_1, 0, BlockId.soapy_hackrf_sink_0, 0⟩ ]

/-- The directed pipeline the spec describes: WAV source, audio resampler,
FM modulator, RF resampler, SDR sink, each stage on port 0. Stated from the
spec's words, to be compared with `connections`. -/
def pipeline_edges : List Connection :=
  [ ⟨BlockId.blocks_wavfile_source_0, 0, BlockId.rational_resampler_xxx_0, 0⟩
  , ⟨BlockId.rational_resampler_xxx_0, 0, BlockId.analog_nbfm_tx_0, 0⟩
  , ⟨BlockId.analog_nbfm_tx_0, 0, BlockId.rational_resampler_xxx_1, 0⟩
  , ⟨BlockId.rational_resampler_xxx_1, 0, BlockId.soapy_hackrf_sink_0, 0⟩ ]

/-! ### The program's step traces -/

/-- A try/except block of the script: which exception class the except
clause names, whether the handler prints to standard error, and whether it
re-raises (aborting construction). -/
structure Guard where
  site : String
  catches : String
  prints_to_stderr : Bool
  reraises : Bool
deriving DecidableEq, Repr

/-- The try/except around `self.setWindowIcon(Qt.QIcon.fromTheme(...))`
(lines 37-40). -/
def icon_guard : Guard :=
  { site := "setWindowIcon", catches := "BaseException"
    prints_to_stderr := true, reraises := false }

/-- The try/except around the geometry restoration (lines 55-60). -/
def geometry_guard : Guard :=
  { site := "restoreGeometry", catches := "BaseException"
    prints_to_stderr := true, reraises := false }

/-- One step of the script, used for the `__init__`/`main` trace and for
the `closeEvent` trace. Try/except blocks are delimited by
`try_enter`/`try_exit`. -/
inductive Step
  | top_block_init (title : String)
  | qwidget_init
  | set_window_title (t : String)
  | check_set_qss
  | try_enter (g : Guard)
  | try_exit
  | set_window_icon
  | gui_layout_setup
  | settings_create (org app : String)
  | settings_read (key : String)
  | settings_set_value (key : String)
  | restore_geometry
  | flowgraph_event_create
  | variable_assign
  | gui_label_setup
  | block_instantiate (b : BlockId)
  | connect_decl (c : Connection)
  | qapp_create
  | engine_start
  | flowgraph_started_set
  | gui_show
  | signal_handlers_install
  | timer_setup
  | gui_exec_loop
  | stop_flowgraph
  | wait_flowgraph
  | accept_event
deriving DecidableEq, Repr

/-- The steps of `pirate_radio.__init__`, in source order. -/
def init_trace : List Step :=
  [ Step.top_block_init "Pirate Radio"
  , Step.qwidget_init
  , Step.set_window_title "Pirate Radio"
  , Step.check_set_qss
  , Step.try_enter icon_guard
  , Step.set_window_icon
  , Step.try_exit
  , Step.gui_layout_setup
  , Step.settings_create "gnuradio/flowgraphs" "pirate_radio"
  , Step.try_enter geometry_guard
  , Step.settings_read "geometry"
  , Step.restore_geometry
  , Step.try_exit
  , Step.flowgraph_event_create
  , Step.variable_assign
  , Step.gui_label_setup
  , Step.block_instantiate BlockId.soapy_hackrf_sink_0
  , Step.block_instantiate BlockId.rational_resampler_xxx_1
  , Step.block_instantiate BlockId.rational_resampler_xxx_0
  , Step.block_instantiate BlockId.blocks_wavfile_source_0
  , Step.block_instantiate BlockId.analog_nbfm_tx_0 ]
  ++ connections.map Step.connect_decl

/-- The steps of `main()`: construct the Qt application, construct the top
block (inlining `__init__`), start the engine, signal the started event,
show the window, install signal handlers, set up the keep-alive timer, and
enter the Qt event loop. -/
def main_trace : List Step :=
  [Step.qapp_create] ++ init_trace
  ++ [ Step.engine_start
     , Step.flowgraph_started_set
     , Step.gui_show
     , Step.signal_handlers_install
     , Step.timer_setup
     , Step.gui_exec_loop ]

/-- The steps of `pirate_radio.closeEvent` (lines 129-135). -/
def closeEvent_trace : List Step :=
  [ Step.settings_create "gnuradio/flowgraphs" "pirate_radio"
  , Step.settings_set_value "geometry"
  , Step.stop_flowgraph
  , Step.wait_flowgraph
  , Step.accept_event ]

/-- The settings reads performed by a trace, each paired with the
(organization, application) of the most recently created `QSettings`. -/
def settings_reads : Option (String × String) → List Step → List (String × String × String)
  | _, [] => []
  | _, Step.settings_create org app :: rest =>
      settings_reads (some (org, app)) rest
  | some (org, app), Step.settings_read key :: rest =>
      (org, app, key) :: settings_reads (some (org, app)) rest
  | none, Step.settings_read _ :: rest => settings_reads none rest
  | cur, _ :: rest => settings_reads cur rest

/-- The settings writes (persisted state) performed by a trace, each paired
with the (organization, application) of the current `QSettings`. -/
def settings_writes : Option (String × String) → List Step → List (String × String × String)
  | _, [] => []
  | _, Step.settings_create org app :: rest =>
      settings_writes (some (org, app)) rest
  | some (org, app), Step.settings_set_value key :: rest =>
      (org, app, key) :: settings_writes (some (org, app)) rest
  | none, Step.settings_set_value _ :: rest => settings_writes none rest
  | cur, _ :: rest => settings_writes cur rest

/-- The guards entered along a trace, in order. -/
def guards_of (t : List Step) : List Guard :=
  t.filterMap fun s =>
    match s with
    | Step.try_enter g => some g
    | _ => none

/-- Whether a step is one of the five phases the spec's overview names:
flow-graph container construction, block instantiation, connection
declaration, engine start, GUI event loop. -/
def core_step : Step → Bool
  | Step.top_block_init _ => true
  | Step.block_instantiate _ => true
  | Step.connect_decl _ => true
  | Step.engine_start => true
  | Step.gui_exec_loop => true
  | _ => false

/-- The source-order list of instantiated blocks. -/
def instantiated_blocks (t : List Step) : List BlockId :=
  t.filterMap fun s =>
    match s with
    | Step.block_instantiate b => some b
    | _ => none

/-- The calls on the soapy sink among a list of emitted external calls. -/
def sink_calls_of (es : List ExtCall) : List SinkCall :=
  es.filterMap fun e =>
    match e with
    | ExtCall.sink c => some c
    | _ => none

/-- The gain-stage names configured by a list of sink calls, in order. -/
def gain_stages (cs : List SinkCall) : List String :=
  cs.filterMap fun c =>
    match c with
    | SinkCall.set_gain _ stage _ => some stage
    | _ => none

/-- The channel argument of a sink call. -/
def sink_chan : SinkCall → ℤ
  | SinkCall.set_sample_rate chan _ => chan
  | SinkCall.set_bandwidth chan _ => chan
  | SinkCall.set_frequency chan _ => chan
  | SinkCall.set_gain chan _ _ => chan

/-- The value 102.2 = 511/5 as an explicit normalized rational, used to
evaluate the initial status label concretely. -/
def q102_2 : ℚ := ⟨511, 5, by decide, by decide⟩

/-- C1: for every requested center frequency F, `set_rf_freq F` stores the
label `str(F/1e6) + " MHz"` and the only sink call it emits is
`set_frequency(0, F)`; the construction-time label equals
`str(rf_freq/1e6) + " MHz"` for the initial `rf_freq` of 102.2e6
(concretely, "102.2 MHz"). -/
theorem C1_set_rf_freq_label_and_frequency :
    (∀ (st : State) (F : ℚ),
      (set_rf_freq st F).1.transmit_status_label = pyFloatStr (F / 1000000) ++ " MHz"
      ∧ sink_calls_of (set_rf_freq st F).2 = [SinkCall.set_frequency 0 F])
    ∧ rf_freq_init = 102200000
    ∧ init_state.transmit_status_label = pyFloatStr (rf_freq_init / 1000000) ++ " MHz"
    ∧ init_state.transmit_status_label = "102.2 MHz" := by
  refine ⟨fun st F => ⟨rfl, rfl⟩, rfl, rfl, ?_⟩
  show pyFloatStr (rf_freq_init / 1000000) ++ " MHz" = "102.2 MHz"
  have h : rf_freq_init / 1000000 = q102_2 := by
    rw [q102_2, Rat.mk'_eq_divInt, Rat.divInt_eq_div]
    norm_num [rf_freq_init]
  rw [h]
  decide

/-- C1 witness: the theorem instantiated at the initial state and the
initial frequency. -/
theorem C1_set_rf_freq_label_and_frequency_witness :
    (set_rf_freq init_state 102200000).1.transmit_status_label
        = pyFloatStr ((102200000 : ℚ) / 1000000) ++ " MHz"
      ∧ sink_calls_of (set_rf_freq init_state 102200000).2
        = [SinkCall.set_frequency 0 102200000] :=
  C1_set_rf_freq_label_and_frequency.1 init_state 102200000

/-- C2: every declared connection joins an output port 0 to an input
port 0, and the four declarations are exactly the edges of the single
pipeline WAV source, audio resampler, FM modulator, RF resampler, SDR
sink, with no other connections. -/
theorem C2_connections_form_pipeline :
    connections.all (fun c => c.src_port = 0 && c.dst_port = 0) = true
    ∧ connections.Perm pipeline_edges
    ∧ connections.length = 4 := by
  decide

/-- C3: projected to the phases the overview names, the program trace is:
one top-level flow-graph container construction, then exactly five block
instantiations (all distinct), then exactly four connection declarations,
then the engine start, then the GUI event loop. -/
theorem C3_program_phase_order :
    main_trace.filter core_step
      = [Step.top_block_init "Pirate Radio"]
        ++ [ Step.block_instantiate BlockId.soapy_hackrf_sink_0
           , Step.block_instantiate BlockId.rational_resampler_xxx_1
           , Step.block_instantiate BlockId.rational_resampler_xxx_0
           , Step.block_instantiate BlockId.blocks_wavfile_source_0
           , Step.block_instantiate BlockId.analog_nbfm_tx_0 ]
        ++ connections.map Step.connect_decl
        ++ [Step.engine_start, Step.gui_exec_loop]
    ∧ (instantiated_blocks main_trace).length = 5
    ∧ (instantiated_blocks main_trace).Nodup
    ∧ connections.length = 4 := by
  decide

/-- C4: the sink is opened with driver string "driver=hackrf" and its setup
calls are exactly: sample rate 2000000, bandwidth 0, center frequency
102.2e6, and the two gain stages "AMP" and "VGA", all on channel 0. -/
theorem C4_sink_configuration :
    soapy_hackrf_sink_0_args.dev = "driver=hackrf"
    ∧ soapy_hackrf_sink_0_setup
      = [ SinkCall.set_sample_rate 0 2000000
        , SinkCall.set_bandwidth 0 0
        , SinkCall.set_frequency 0 102200000
        , SinkCall.set_gain 0 "AMP" (GainVal.bool false)
        , SinkCall.set_gain 0 "VGA" (GainVal.num 16) ]
    ∧ gain_stages soapy_hackrf_sink_0_setup = ["AMP", "VGA"]
    ∧ soapy_hackrf_sink_0_setup.all (fun c => sink_chan c = 0) = true := by
  refine ⟨rfl, by decide, by decide, by decide⟩

/-- C5: the guarded operations of the whole script are exactly the
window-icon lookup and the geometry restoration, in both of which the
except clause names BaseException, the handler prints to standard error,
and construction continues (no re-raise). -/
theorem C5_exactly_two_guards :
    guards_of (main_trace ++ closeEvent_trace) = [icon_guard, geometry_guard]
    ∧ (guards_of (main_trace ++ closeEvent_trace)).all
        (fun g => g.catches = "BaseException"
          && g.prints_to_stderr && !g.reraises) = true := by
  decide

/-- C6: the only settings write of the whole program is the geometry,
written by `closeEvent` under ("gnuradio/flowgraphs", "pirate_radio") at
key "geometry"; construction reads the same triple back; and `closeEvent`
stops the flow graph and waits for it before accepting the close event. -/
theorem C6_geometry_persistence :
    settings_writes none closeEvent_trace
      = [("gnuradio/flowgraphs", "pirate_radio", "geometry")]
    ∧ settings_writes none main_trace = []
    ∧ settings_reads none main_trace
      = [("gnuradio/flowgraphs", "pirate_radio", "geometry")]
    ∧ closeEvent_trace.indexOf Step.stop_flowgraph
        < closeEvent_trace.indexOf Step.accept_event
    ∧ closeEvent_trace.indexOf Step.wait_flowgraph
        < closeEvent_trace.indexOf Step.accept_event
    ∧ Step.accept_event ∈ closeEvent_trace := by
  decide

/-- C7: the audio input block is a WAV-file source with the fixed path
'audio/example_1mb.wav' and the repeat flag True. -/
theorem C7_wavfile_source :
    blocks_wavfile_source_0_args.filename = "audio/example_1mb.wav"
    ∧ blocks_wavfile_source_0_args.repeat_flag = true := by
  exact ⟨rfl, rfl⟩

/-- C8: the RF resampler's ratio 2000000/480000 reduces to the coprime
integer pair (25, 6) and the audio resampler's ratio 480000/48000 reduces
to (10, 1), both via the gcd of the configured interpolation/decimation. -/
theorem C8_resampler_ratios_reduce :
    (rational_resampler_xxx_1_args.interpolation
        / Nat.gcd rational_resampler_xxx_1_args.interpolation
            rational_resampler_xxx_1_args.decimation,
      rational_resampler_xxx_1_args.decimation
        / Nat.gcd rational_resampler_xxx_1_args.interpolation
            rational_resampler_xxx_1_args.decimation) = (25, 6)
    ∧ Nat.gcd 25 6 = 1
    ∧ (rational_resampler_xxx_1_args.interpolation : ℚ)
        / rational_resampler_xxx_1_args.decimation = 25 / 6
    ∧ (rational_resampler_xxx_0_args.interpolation
        / Nat.gcd rational_resampler_xxx_0_args.interpolation
            rational_resampler_xxx_0_args.decimation,
      rational_resampler_xxx_0_args.decimation
        / Nat.gcd rational_resampler_xxx_0_args.interpolation
            rational_resampler_xxx_0_args.decimation) = (10, 1)
    ∧ Nat.gcd 10 1 = 1
    ∧ (rational_resampler_xxx_0_args.interpolation : ℚ)
        / rational_resampler_xxx_0_args.decimation = 10 / 1 := by
  refine ⟨by decide, by decide, ?_, by decide, by decide, ?_⟩
  · norm_num [rational_resampler_xxx_1_args]
  · norm_num [rational_resampler_xxx_0_args]

/-- C9: for each of the five variables, calling the setter with v and then
the getter returns exactly v. -/
theorem C9_setter_getter_round_trip :
    ∀ (st : State) (v : ℚ) (s : String),
      get_rf_freq (set_rf_freq st v).1 = v
      ∧ get_transmit_status_label (set_transmit_status_label st s).1 = s
      ∧ get_rf_rate (set_rf_rate st v).1 = v
      ∧ get_quad_rate (set_quad_rate st v).1 = v
      ∧ get_audio_rate (set_audio_rate st v).1 = v := by
  intro st v s
  exact ⟨rfl, rfl, rfl, rfl, rfl⟩

/-- C9 witness: the round trips instantiated at the initial state with
concrete values. -/
theorem C9_setter_getter_round_trip_witness :
    get_rf_freq (set_rf_freq init_state 7).1 = 7
    ∧ get_transmit_status_label (set_transmit_status_label init_state "x").1 = "x"
    ∧ get_rf_rate (set_rf_rate init_state 7).1 = 7
    ∧ get_quad_rate (set_quad_rate init_state 7).1 = 7
    ∧ get_audio_rate (set_audio_rate init_state 7).1 = 7 :=
  C9_setter_getter_round_trip init_state 7 "x"

/-- C10: `set_quad_rate` and `set_audio_rate` change only their own stored
field and emit no external call (so every block keeps its construction-time
configuration), while `set_rf_rate` changes only `rf_rate` and emits
exactly the sink call `set_sample_rate(0, v)`; no setter touches any other
field. -/
theorem C10_setter_frame_conditions :
    ∀ (st : State) (v : ℚ),
      (set_quad_rate st v).1 = { st with quad_rate := v }
      ∧ (set_quad_rate st v).2 = []
      ∧ (set_audio_rate st v).1 = { st with audio_rate := v }
      ∧ (set_audio_rate st v).2 = []
      ∧ (set_rf_rate st v).1 = { st with rf_rate := v }
      ∧ (set_rf_rate st v).2 = [ExtCall.sink (SinkCall.set_sample_rate 0 v)] := by
  intro st v
  exact ⟨rfl, rfl, rfl, rfl, rfl, rfl⟩

/-- C10 witness: the frame conditions instantiated at the initial state
with a concrete rate. -/
theorem C10_setter_frame_conditions_witness :
    (set_quad_rate init_state 5).1 = { init_state with quad_rate := 5 }
    ∧ (set_quad_rate init_state 5).2 = []
    ∧ (set_audio_rate init_state 5).1 = { init_state with audio_rate := 5 }
    ∧ (set_audio_rate init_state 5).2 = []
    ∧ (set_rf_rate init_state 5).1 = { init_state with rf_rate := 5 }
    ∧ (set_rf_rate init_state 5).2 = [ExtCall.sink (SinkCall.set_sample_rate 0 5)] :=
  C10_setter_frame_conditions init_state 5

end PirateRadio
